import Mathlib

/-!
Shallow embedding of the miko avatar front-end core
(`animation-controller.js`, `live2d-parameter-mapping.js`,
`live2d-integration.js` and the WebSocket animation client),
with theorems checking the natural-language specification
against the embedded code.

Conventions:
* JavaScript numbers are modelled as rationals (`ℚ`); all arithmetic in
  the embedded functions is exact, so `ℚ` is a faithful carrier.
* JavaScript objects used as string-keyed maps are modelled as
  association lists `List (String × _)`, looked up with `assoc`.
* Timestamps (`Date.now()`) are modelled as integers (milliseconds).
* Strings are modelled as `String` / `List Char`.
-/

/-- Association lookup, modelling JavaScript `obj[key]`
(`none` models `undefined`). -/
def assoc {β : Type} : List (String × β) → String → Option β
  | [], _ => none
  | (k, v) :: rest, key => if k = key then some v else assoc rest key

/-- Key update, modelling JavaScript `obj[key] = value`. -/
def setKey {β : Type} : List (String × β) → String → β → List (String × β)
  | [], k, v => [(k, v)]
  | (k', v') :: rest, k, v =>
    if k' = k then (k, v) :: rest else (k', v') :: setKey rest k v

/-! ## ConnectionManager: reconnection backoff
(`WebSocketAnimationClient`, src/unnamed/part_000)

Constructor constants:
`reconnectAttempts = 0`, `maxReconnectAttempts = 5`,
`reconnectDelay = 1000`, `maxReconnectDelay = 30000`. -/

def maxReconnectAttempts : ℕ := 5

def reconnectDelay : ℕ := 1000

def maxReconnectDelay : ℕ := 30000

/-- Outcome of one `scheduleReconnect()` call: the delay passed to
`setTimeout` (if any), whether the terminal `websocketReconnectFailed`
event was dispatched, and the attempt counter afterwards. -/
structure ReconnectAction where
  delayScheduled : Option ℕ
  reconnectFailedSignalled : Bool
  attemptsAfter : ℕ
  deriving DecidableEq, Repr

/-- `WebSocketAnimationClient.scheduleReconnect`: if the attempt counter
has reached the maximum, dispatch `websocketReconnectFailed` and stop;
otherwise increment the counter first, then compute
`delay = min(reconnectDelay * 2^(reconnectAttempts - 1), maxReconnectDelay)`
and schedule `connect()` after that delay. -/
def scheduleReconnect (reconnectAttempts : ℕ) : ReconnectAction :=
  if reconnectAttempts ≥ maxReconnectAttempts then
    ⟨none, true, reconnectAttempts⟩
  else
    let attempts := reconnectAttempts + 1
    ⟨some (min (reconnectDelay * 2 ^ (attempts - 1)) maxReconnectDelay),
      false, attempts⟩

/-- `handleOpen` resets the attempt counter to 0 on a successful open. -/
def handleOpenAttempts : ℕ := 0

/-- The delays produced by `n` successive unintentional disconnects
(each `handleClose` with code ≠ 1000 calls `scheduleReconnect`),
starting from attempt counter `a`, with no successful open in between. -/
def reconnectTrace : ℕ → ℕ → List (Option ℕ)
  | _, 0 => []
  | a, n + 1 =>
    let r := scheduleReconnect a
    r.delayScheduled :: reconnectTrace r.attemptsAfter n

/-! ## ParameterEngine (`Live2DParameterMapping`,
src/src/web/static/js/live2d-parameter-mapping.js) -/

/-- Declared bounds of a standard Live2D parameter:
`{ min, max, default }`. -/
structure ParamBounds where
  min : ℚ
  max : ℚ
  default : ℚ
  deriving DecidableEq, Repr

/-- A parameter map: parameter id → value
(a JavaScript object with number values). -/
abbrev ParamMap := List (String × ℚ)

/-- An expression table: expression name → parameter map
(the mutable `this.expressions` object). -/
abbrev ExprTable := List (String × ParamMap)

/-- `this.standardParameters`, seeded in the constructor. -/
def standardParameters : List (String × ParamBounds) :=
  [("ParamAngleX", ⟨-30, 30, 0⟩),
   ("ParamAngleY", ⟨-30, 30, 0⟩),
   ("ParamAngleZ", ⟨-30, 30, 0⟩),
   ("ParamEyeLOpen", ⟨0, 1, 1⟩),
   ("ParamEyeROpen", ⟨0, 1, 1⟩),
   ("ParamEyeBallX", ⟨-1, 1, 0⟩),
   ("ParamEyeBallY", ⟨-1, 1, 0⟩),
   ("ParamBrowLY", ⟨-1, 1, 0⟩),
   ("ParamBrowRY", ⟨-1, 1, 0⟩),
   ("ParamMouthForm", ⟨-1, 1, 0⟩),
   ("ParamMouthOpenY", ⟨0, 1, 0⟩),
   ("ParamBodyAngleX", ⟨-10, 10, 0⟩),
   ("ParamBodyAngleY", ⟨-10, 10, 0⟩),
   ("ParamBodyAngleZ", ⟨-10, 10, 0⟩),
   ("ParamBreath", ⟨0, 1, 0⟩),
   ("Param12", ⟨0, 1, 0⟩)]

/-- `this.expressions`, seeded in the constructor
(the initial expression table). -/
def initExpressions : ExprTable :=
  [("neutral",
    [("ParamMouthForm", 0), ("ParamEyeLOpen", 1), ("ParamEyeROpen", 1),
     ("ParamBrowLY", 0), ("ParamBrowRY", 0), ("ParamMouthOpenY", 0),
     ("ParamEyeBallX", 0), ("ParamEyeBallY", 0)]),
   ("happy",
    [("ParamMouthForm", 4/5), ("ParamEyeLOpen", 3/5), ("ParamEyeROpen", 3/5),
     ("ParamBrowLY", 3/10), ("ParamBrowRY", 3/10), ("ParamMouthOpenY", 1/5),
     ("ParamEyeBallY", -1/10)]),
   ("sad",
    [("ParamMouthForm", -3/5), ("ParamEyeLOpen", 4/5), ("ParamEyeROpen", 4/5),
     ("ParamBrowLY", -1/2), ("ParamBrowRY", -1/2), ("ParamMouthOpenY", 0),
     ("ParamEyeBallY", 1/5), ("ParamAngleZ", -2)]),
   ("angry",
    [("ParamMouthForm", -2/5), ("ParamEyeLOpen", 2/5), ("ParamEyeROpen", 2/5),
     ("ParamBrowLY", -4/5), ("ParamBrowRY", -4/5), ("ParamMouthOpenY", 1/10),
     ("ParamEyeBallX", 0), ("ParamEyeBallY", -1/5)]),
   ("surprised",
    [("ParamMouthForm", 0), ("ParamEyeLOpen", 6/5), ("ParamEyeROpen", 6/5),
     ("ParamBrowLY", 3/5), ("ParamBrowRY", 3/5), ("ParamMouthOpenY", 4/5),
     ("ParamEyeBallY", -3/10)]),
   ("speak",
    [("ParamMouthOpenY", 3/5), ("ParamMouthForm", 1/5),
     ("ParamEyeLOpen", 1), ("ParamEyeROpen", 1)]),
   ("blink",
    [("ParamEyeLOpen", 0), ("ParamEyeROpen", 0)]),
   ("wink_left",
    [("ParamEyeLOpen", 0), ("ParamEyeROpen", 1), ("ParamMouthForm", 3/10)]),
   ("wink_right",
    [("ParamEyeLOpen", 1), ("ParamEyeROpen", 0), ("ParamMouthForm", 3/10)])]

/-- `Live2DParameterMapping.validateParameter`: clamp `value` to the
declared bounds via `Math.max(min, Math.min(max, value))`; an unknown
parameter id is returned as-is (with a console warning). -/
def validateParameter (paramId : String) (value : ℚ) : ℚ :=
  match assoc standardParameters paramId with
  | none => value
  | some paramDef => max paramDef.min (min paramDef.max value)

/-- The per-parameter body of the known-expression path of
`getExpressionParameters`: scale the base value by `intensity`, then
clamp to the declared bounds when the parameter id is declared
(an undeclared id is scaled but not clamped). -/
def scaleParam (intensity : ℚ) (paramId : String) (baseValue : ℚ) : ℚ :=
  match assoc standardParameters paramId with
  | some paramDef => max paramDef.min (min paramDef.max (baseValue * intensity))
  | none => baseValue * intensity

/-- `Live2DParameterMapping.getExpressionParameters`: look up the named
expression; if unknown, warn and return `this.expressions['neutral']`
as-is (`none` models the `undefined` a mutated table could yield);
if known, scale every base value by `intensity` and clamp declared
parameters to their bounds. -/
def getExpressionParameters (table : ExprTable) (expression : String)
    (intensity : ℚ) : Option ParamMap :=
  match assoc table expression with
  | none => assoc table "neutral"
  | some baseParams =>
    some (baseParams.map (fun pv => (pv.1, scaleParam intensity pv.1 pv.2)))

/-- The initial `happy` expression parameter map, for witnesses. -/
def happyBaseParams : ParamMap :=
  [("ParamMouthForm", 4/5), ("ParamEyeLOpen", 3/5), ("ParamEyeROpen", 3/5),
   ("ParamBrowLY", 3/10), ("ParamBrowRY", 3/10), ("ParamMouthOpenY", 1/5),
   ("ParamEyeBallY", -1/10)]

/-- The `'bounce'` entry of `this.easingFunctions` (the four-segment
bounce-out piecewise formula; 2.75 = 11/4, 7.5625 = 121/16,
1.5 = 3/2, 2.25 = 9/4, 2.5 = 5/2, 2.625 = 21/8). -/
def bounceEase (t : ℚ) : ℚ :=
  if t < 1 / (11/4) then
    (121/16) * t * t
  else if t < 2 / (11/4) then
    let t' := t - (3/2) / (11/4)
    (121/16) * t' * t' + 3/4
  else if t < (5/2) / (11/4) then
    let t' := t - (9/4) / (11/4)
    (121/16) * t' * t' + 15/16
  else
    let t' := t - (21/8) / (11/4)
    (121/16) * t' * t' + 63/64

/-- `this.easingFunctions`: name → easing function. -/
def easingFunctionsMap : List (String × (ℚ → ℚ)) :=
  [("linear", fun t => t),
   ("easeInOut", fun t => if t < 1/2 then 2 * t * t else -1 + (4 - 2 * t) * t),
   ("easeOut", fun t => t * (2 - t)),
   ("easeIn", fun t => t * t),
   ("bounce", bounceEase)]

/-- First-occurrence key deduplication, modelling
`new Set([...Object.keys(fromParams), ...Object.keys(toParams)])`. -/
def dedupKeys : List String → List String
  | [] => []
  | k :: rest => k :: (dedupKeys rest).filter (fun x => x != k)

/-- `Live2DParameterMapping.interpolateParameters`: pick the easing
function by name (default linear), clamp progress to `[0, 1]`, ease it,
collect the union of the two key sets, and blend each parameter with a
missing key on either side read as 0
(`fromValue + (toValue - fromValue) * t`). -/
def interpolateParameters (fromParams toParams : ParamMap) (progress : ℚ)
    (easingType : String) : ParamMap :=
  let easingFunc := (assoc easingFunctionsMap easingType).getD (fun t => t)
  let t := easingFunc (max 0 (min 1 progress))
  let allParams := dedupKeys (fromParams.map Prod.fst ++ toParams.map Prod.fst)
  allParams.map (fun paramId =>
    let fromValue := (assoc fromParams paramId).getD 0
    let toValue := (assoc toParams paramId).getD 0
    (paramId, fromValue + (toValue - fromValue) * t))

/-- The easing formulas exactly as the specification states them:
linear `t`, easeIn `t²`, easeOut `t(2−t)`,
easeInOut `t<0.5 ? 2t² : 1−(−2t+2)²/2`, and the four-segment
bounce-out piecewise formula. -/
def specEase (name : String) (t : ℚ) : ℚ :=
  if name = "linear" then t
  else if name = "easeIn" then t ^ 2
  else if name = "easeOut" then t * (2 - t)
  else if name = "easeInOut" then
    (if t < 1/2 then 2 * t ^ 2 else 1 - (-2 * t + 2) ^ 2 / 2)
  else
    (if t < 1 / (11/4) then (121/16) * t ^ 2
     else if t < 2 / (11/4) then (121/16) * (t - (3/2) / (11/4)) ^ 2 + 3/4
     else if t < (5/2) / (11/4) then (121/16) * (t - (9/4) / (11/4)) ^ 2 + 15/16
     else (121/16) * (t - (21/8) / (11/4)) ^ 2 + 63/64)

/-- The object produced by `exportExpression`: `{ name, parameters }`.
The `timestamp` field (`new Date().toISOString()`) is environmental and
ignored by `importExpression`, so it is omitted from the model. -/
structure ExpressionData where
  name : String
  parameters : ParamMap
  deriving DecidableEq, Repr

/-- `Live2DParameterMapping.exportExpression`: `null` for an unknown
name, otherwise `{ name, parameters: {...params} }`. -/
def exportExpression (table : ExprTable) (expression : String) :
    Option ExpressionData :=
  match assoc table expression with
  | none => none
  | some params => some ⟨expression, params⟩

/-- `Live2DParameterMapping.importExpression`: throws
`'Invalid expression data format'` when `expressionData.name` is falsy
(the empty string; `expressionData.parameters` is an object and hence
always truthy when present), otherwise stores a copy of the parameters
under the name. -/
def importExpression (table : ExprTable) (expressionData : ExpressionData) :
    Except String ExprTable :=
  if expressionData.name = "" then
    .error "Invalid expression data format"
  else
    .ok (setKey table expressionData.name expressionData.parameters)

/-- `exportExpression` followed by `importExpression` of the exported
result; a `null` export or a thrown import leaves the table unchanged. -/
def exportImportRoundTrip (table : ExprTable) (expression : String) :
    ExprTable :=
  match exportExpression table expression with
  | none => table
  | some ed =>
    match importExpression table ed with
    | .error _ => table
    | .ok table' => table'

/-! ## AnimationScheduler (`AnimationController`,
src/src/web/static/js/animation-controller.js) -/

/-- `this.intensityModifiers` from the `AnimationController`
constructor (1.2, 0.7, 1.1, 0.8). -/
structure IntensityModifiers where
  first_interaction : ℚ
  repeated_expression : ℚ
  high_engagement : ℚ
  low_engagement : ℚ

def intensityModifiers : IntensityModifiers :=
  ⟨6/5, 7/10, 11/10, 4/5⟩

/-- `this.transitionRules` from the `AnimationController` constructor. -/
def transitionRules : List (String × List String) :=
  [("happy", ["neutral", "surprised", "speak"]),
   ("sad", ["neutral", "angry"]),
   ("angry", ["neutral", "sad"]),
   ("surprised", ["happy", "neutral"]),
   ("neutral", ["happy", "sad", "surprised", "angry", "speak"]),
   ("speak", ["neutral", "happy"])]

/-- `AnimationController.isValidTransition`: transitions from a falsy
(unset, modelled `""`) or `'neutral'` current expression are always
valid; otherwise the target must be listed in `transitionRules`
(`|| []` reads a missing row as the empty list). -/
def isValidTransition (fromExpression toExpression : String) : Bool :=
  if fromExpression = "" ∨ fromExpression = "neutral" then
    true
  else
    ((assoc transitionRules fromExpression).getD []).contains toExpression

/-- `this.conversationContext` (the `lastUserInput` field is unused by
`determineAnimation` and omitted). -/
structure ConversationContext where
  mood : String
  energy : ℚ
  engagement : ℚ
  responseCount : ℕ

/-- The conversation context set in the constructor and by
`resetContext`. -/
def initConversationContext : ConversationContext :=
  ⟨"neutral", 1/2, 1/2, 0⟩

/-- One entry of `this.animationHistory`: `addToHistory` spreads the
animation object (expression, intensity, duration, sentiment,
confidence) and adds `timestamp: Date.now()`. -/
structure HistoryEntry where
  expression : String
  intensity : ℚ
  duration : ℚ
  sentiment : String
  confidence : ℚ
  timestamp : ℤ
  deriving DecidableEq, Repr

/-- The animation object built by `determineAnimation` and consumed by
`triggerContextualAnimation`. -/
structure AnimDecision where
  expression : String
  intensity : ℚ
  duration : ℚ
  sentiment : String
  confidence : ℚ
  deriving DecidableEq, Repr

/-- One call to the render target `live2d.triggerAnimation(expression,
intensity, duration)`. -/
structure Playback where
  expression : String
  intensity : ℚ
  duration : ℚ
  deriving DecidableEq, Repr

/-- `sentimentMap` in `Live2DIntegration.mapSentimentToExpression`. -/
def sentimentMap : List (String × String) :=
  [("positive", "happy"),
   ("negative", "sad"),
   ("anger", "angry"),
   ("surprise", "surprised"),
   ("neutral", "neutral"),
   ("joy", "happy"),
   ("sadness", "sad"),
   ("fear", "surprised"),
   ("disgust", "angry")]

/-- `String.prototype.toLowerCase` on a Lean `String`. -/
def jsToLower (s : String) : String := String.map Char.toLower s

/-- The pure lookup part of
`Live2DIntegration.mapSentimentToExpression`:
`sentimentMap[sentiment.toLowerCase()] || 'neutral'`. -/
def mapSentimentToExpression (sentiment : String) : String :=
  (assoc sentimentMap (jsToLower sentiment)).getD "neutral"

/-- The intensity after the first-interaction modifier
(`intensity *= 1.2` when `responseCount === 0`). -/
def intensityAfterFirstInteraction (confidence : ℚ)
    (ctx : ConversationContext) : ℚ :=
  if ctx.responseCount = 0 then
    confidence * intensityModifiers.first_interaction
  else confidence

/-- The intensity after the engagement modifier
(`×1.1` if engagement > 0.7, else `×0.8` if engagement < 0.3). -/
def intensityAfterEngagement (confidence : ℚ)
    (ctx : ConversationContext) : ℚ :=
  if ctx.engagement > 7/10 then
    intensityAfterFirstInteraction confidence ctx *
      intensityModifiers.high_engagement
  else if ctx.engagement < 3/10 then
    intensityAfterFirstInteraction confidence ctx *
      intensityModifiers.low_engagement
  else intensityAfterFirstInteraction confidence ctx

/-- `this.animationHistory.slice(-3).filter(h => h.expression ===
baseExpression).length`. -/
def repeatedExpressionCount (history : List HistoryEntry)
    (baseExpression : String) : ℕ :=
  ((history.drop (history.length - 3)).filter
    (fun h => h.expression == baseExpression)).length

/-- The intensity after all three modifiers, before the final clamp
(`×0.7` when the same expression appears ≥ 2 times among the last 3
history entries). -/
def preClampIntensity (confidence : ℚ) (ctx : ConversationContext)
    (history : List HistoryEntry) (baseExpression : String) : ℚ :=
  if repeatedExpressionCount history baseExpression ≥ 2 then
    intensityAfterEngagement confidence ctx *
      intensityModifiers.repeated_expression
  else intensityAfterEngagement confidence ctx

/-- `AnimationController.determineAnimation`: expression from the
sentiment lookup, intensity from `confidence` through the three
modifiers clamped to `[0.3, 1.0]`, duration
`2.0 + min(text.length/100, 2.0) * 0.5`. -/
def determineAnimation (sentiment : String) (confidence : ℚ)
    (text : String) (ctx : ConversationContext)
    (history : List HistoryEntry) : AnimDecision :=
  let baseExpression := mapSentimentToExpression sentiment
  { expression := baseExpression
    intensity :=
      max (3/10) (min 1 (preClampIntensity confidence ctx history baseExpression))
    duration := 2 + min ((text.length : ℚ) / 100) 2 * (1/2)
    sentiment := sentiment
    confidence := confidence }

def minAnimationInterval : ℤ := 500

def maxHistoryLength : ℕ := 10

/-- `AnimationController.addToHistory`: push the entry, then `shift()`
(drop the oldest) when the length exceeds `maxHistoryLength`. -/
def addToHistory (history : List HistoryEntry) (entry : HistoryEntry) :
    List HistoryEntry :=
  let h := history ++ [entry]
  if h.length > maxHistoryLength then h.drop 1 else h

/-- The scheduler state mutated by `triggerContextualAnimation`:
`this.lastAnimationTime` and `this.animationHistory`
(`this.live2d.currentExpression` is passed separately). -/
structure SchedulerState where
  lastAnimationTime : ℤ
  animationHistory : List HistoryEntry
  deriving DecidableEq, Repr

/-- Result of one `triggerContextualAnimation` call: the returned
boolean, the state afterwards, and the sequence of
`live2d.triggerAnimation` playback calls it issued. -/
structure TriggerResult where
  returned : Bool
  state : SchedulerState
  played : List Playback
  deriving DecidableEq, Repr

/-- `AnimationController.triggerContextualAnimation`: reject (return
`false`, no state change, no playback) when less than
`minAnimationInterval` ms have elapsed since `lastAnimationTime`;
otherwise play an intermediate `('neutral', 0.5, 0.5)` first when the
transition is invalid, then play the requested animation;
`live2dSuccess` is the boolean the render target's `triggerAnimation`
resolves to — only on success are the history and `lastAnimationTime`
updated. -/
def triggerContextualAnimation (st : SchedulerState)
    (currentExpression : String) (animation : AnimDecision) (now : ℤ)
    (live2dSuccess : Bool) : TriggerResult :=
  if now - st.lastAnimationTime < minAnimationInterval then
    ⟨false, st, []⟩
  else
    let pre : List Playback :=
      if isValidTransition currentExpression animation.expression then []
      else [⟨"neutral", 1/2, 1/2⟩]
    let played :=
      pre ++ [⟨animation.expression, animation.intensity, animation.duration⟩]
    if live2dSuccess then
      ⟨true,
        ⟨now,
          addToHistory st.animationHistory
            ⟨animation.expression, animation.intensity, animation.duration,
              animation.sentiment, animation.confidence, now⟩⟩,
        played⟩
    else
      ⟨false, st, played⟩

/-- The specification's intensity formula: confidence times the three
modifiers (1.2 first-interaction, 1.1/0.8 engagement, 0.7 repetition)
in the stated fixed order, multiplied out. -/
def specIntensityProduct (confidence engagement : ℚ) (responseCount : ℕ)
    (repeatedCount : ℕ) : ℚ :=
  confidence *
    (if responseCount = 0 then 6/5 else 1) *
    (if engagement > 7/10 then 11/10
     else if engagement < 3/10 then 4/5 else 1) *
    (if repeatedCount ≥ 2 then 7/10 else 1)

/-! ## Engagement scoring
(`AnimationController.analyzeUserEngagement`); text is modelled as
`List Char` (one entry per UTF-16-ish character of the ASCII inputs
involved). -/

/-- `toLowerCase` on a character list. -/
def jsLower (s : List Char) : List Char := s.map Char.toLower

/-- Whether `pat` is an initial segment of `s`. -/
def beginsWith : List Char → List Char → Bool
  | _, [] => true
  | [], _ :: _ => false
  | c :: cs, p :: ps => c == p && beginsWith cs ps

/-- `String.prototype.includes`: `pat` occurs contiguously in `s`. -/
def containsSeq : List Char → List Char → Bool
  | [], pat => pat.isEmpty
  | c :: rest, pat => beginsWith (c :: rest) pat || containsSeq rest pat

/-- The number of (possibly overlapping) occurrences of `pat` in `s`;
used only to state the specification's per-occurrence reading. -/
def countSeq : List Char → List Char → ℕ
  | [], _ => 0
  | c :: rest, pat =>
    (if beginsWith (c :: rest) pat then 1 else 0) + countSeq rest pat

/-- `String.prototype.split(' ')`: split on every single space,
keeping empty tokens. -/
def splitTokens : List Char → List (List Char)
  | [] => [[]]
  | c :: rest =>
    match splitTokens rest with
    | [] => [[]]
    | t :: ts => if c == ' ' then [] :: t :: ts else (c :: t) :: ts

/-- The fixed emotional-keyword list of `analyzeUserEngagement`. -/
def emotionalWords : List (List Char) :=
  ["love".data, "hate".data, "amazing".data, "terrible".data,
   "excited".data, "sad".data, "happy".data]

/-- The fixed personal-pronoun list of `analyzeUserEngagement`. -/
def personalPronouns : List (List Char) :=
  ["i".data, "me".data, "my".data, "myself".data]

/-- `AnimationController.analyzeUserEngagement`: 0.5 for falsy text;
otherwise start at 0.5, +0.2 if length > 50, +0.1 if length > 100,
+0.1 if the text contains `'?'`, +0.05 for each keyword of the
emotional list that occurs in the lowercased text (each list word
counted at most once), +0.03 for each pronoun of the pronoun list that
appears among the space-split tokens (each list word counted at most
once), clamped to `[0.1, 1.0]`. -/
def analyzeUserEngagement (text : List Char) : ℚ :=
  if text = [] then 1/2
  else
    let engagement₀ : ℚ := 1/2
    let engagement₁ :=
      if text.length > 50 then engagement₀ + 1/5 else engagement₀
    let engagement₂ :=
      if text.length > 100 then engagement₁ + 1/10 else engagement₁
    let engagement₃ :=
      if text.contains '?' then engagement₂ + 1/10 else engagement₂
    let engagement₄ := engagement₃ +
      ((emotionalWords.filter
        (fun w => containsSeq (jsLower text) w)).length : ℚ) * (1/20)
    let engagement₅ := engagement₄ +
      ((personalPronouns.filter
        (fun p => (splitTokens (jsLower text)).contains p)).length : ℚ) *
        (3/100)
    max (1/10) (min 1 engagement₅)

/-- The claim's per-occurrence reading of the same scorer: +0.05 per
occurrence of an emotional keyword in the lowercased text and +0.03
per occurrence of a pronoun among the tokens (multiple occurrences of
the same word all counted). -/
def analyzeUserEngagementPerOccurrence (text : List Char) : ℚ :=
  if text = [] then 1/2
  else
    let engagement₀ : ℚ := 1/2
    let engagement₁ :=
      if text.length > 50 then engagement₀ + 1/5 else engagement₀
    let engagement₂ :=
      if text.length > 100 then engagement₁ + 1/10 else engagement₁
    let engagement₃ :=
      if text.contains '?' then engagement₂ + 1/10 else engagement₂
    let engagement₄ := engagement₃ +
      (((emotionalWords.map (fun w => countSeq (jsLower text) w)).sum : ℕ) : ℚ) *
        (1/20)
    let engagement₅ := engagement₄ +
      (((personalPronouns.map (fun p =>
          ((splitTokens (jsLower text)).filter (fun t => t == p)).length)).sum :
        ℕ) : ℚ) * (3/100)
    max (1/10) (min 1 engagement₅)

/-- The amended additive form of the engagement score: 0.5 plus the
length, question-mark, per-distinct-keyword and per-distinct-pronoun
bonuses. -/
def engagementScoreDistinct (text : List Char) : ℚ :=
  1/2 + (if text.length > 50 then 1/5 else 0) +
    (if text.length > 100 then 1/10 else 0) +
    (if text.contains '?' then 1/10 else 0) +
    ((emotionalWords.filter
      (fun w => containsSeq (jsLower text) w)).length : ℚ) * (1/20) +
    ((personalPronouns.filter
      (fun p => (splitTokens (jsLower text)).contains p)).length : ℚ) *
      (3/100)

/-! ## ProtocolHandler
(`WebSocketAnimationClient.handleMessage` / `_validateAnimationEvent` /
`_updateConnectionHealth`, src/unnamed/part_000) -/

/-- The keys of `this.eventHandlers`. -/
def knownMessageTypes : List String :=
  ["connection_established", "animation_event", "heartbeat", "pong",
   "sync_timing"]

/-- Shape of the nested `event` object of an `animation_event` message:
which of the required fields are present, and — when `event_type` is a
truthy object — whether its `type` and `value` sub-fields are truthy. -/
structure AnimEventFields where
  hasEventType : Bool
  hasTimestamp : Bool
  hasData : Bool
  eventTypeIsObject : Bool
  eventTypeHasType : Bool
  eventTypeHasValue : Bool
  deriving DecidableEq, Repr

/-- `_validateAnimationEvent` (as a predicate: `true` iff it does not
throw): requires `event_type`, `timestamp` and `data` to be present,
and a structured `event_type` to carry truthy `type` and `value`. -/
def validateAnimationEvent (e : AnimEventFields) : Bool :=
  e.hasEventType && e.hasTimestamp && e.hasData &&
    (!e.eventTypeIsObject || (e.eventTypeHasType && e.eventTypeHasValue))

/-- A parsed inbound message: whether `JSON.parse` produced an object,
its `type` field (`none`: missing or not a string), and — relevant only
for `animation_event` — the shape of its `event` object (`none`: the
`event` field is missing/falsy). -/
structure InboundMessage where
  parsesToObject : Bool
  typeField : Option String
  eventField : Option AnimEventFields
  deriving DecidableEq, Repr

/-- Observable outcome of `handleMessage` on one inbound message:
which handler (if any) was invoked, the consecutive-error counter
afterwards (`_updateConnectionHealth`), and whether a reconnect was
requested because the counter exceeded 5. -/
structure MsgResult where
  handlerInvoked : Option String
  consecutiveErrors : ℕ
  reconnectRequested : Bool
  deriving DecidableEq, Repr

/-- `_updateConnectionHealth(false)`: increment the consecutive-error
counter and call `scheduleReconnect` when it exceeds 5. -/
def messageFailure (consecutiveErrors : ℕ) : MsgResult :=
  ⟨none, consecutiveErrors + 1, decide (consecutiveErrors + 1 > 5)⟩

/-- `WebSocketAnimationClient.handleMessage`: any structural-validation
failure (non-object payload, missing/empty `type`, malformed
`animation_event`) is caught and counted via
`_updateConnectionHealth(false)`; a message whose type has a handler is
dispatched and then `_updateConnectionHealth(true)` resets the counter
to 0; a well-formed message of unrecognized type is only logged
(no health update). The handler itself is assumed not to throw. -/
def handleMessage (msg : InboundMessage) (consecutiveErrors : ℕ) :
    MsgResult :=
  if !msg.parsesToObject then messageFailure consecutiveErrors
  else
    match msg.typeField with
    | none => messageFailure consecutiveErrors
    | some t =>
      if t = "" then messageFailure consecutiveErrors
      else if t = "animation_event" then
        match msg.eventField with
        | none => messageFailure consecutiveErrors
        | some e =>
          if validateAnimationEvent e then ⟨some t, 0, false⟩
          else messageFailure consecutiveErrors
      else if knownMessageTypes.contains t then ⟨some t, 0, false⟩
      else ⟨none, consecutiveErrors, false⟩

theorem assoc_mem {β : Type} {l : List (String × β)} {key : String} {v : β}
    (h : assoc l key = some v) : (key, v) ∈ l := by
  induction l with
  | nil => simp [assoc] at h
  | cons p rest ih =>
    obtain ⟨k', v'⟩ := p
    by_cases hk : k' = key
    · subst hk
      simp [assoc] at h
      simp [h]
    · simp [assoc, hk] at h
      exact List.mem_cons_of_mem _ (ih h)

theorem assoc_setKey_self {β : Type} (l : List (String × β)) (k : String) (v : β) :
    assoc (setKey l k v) k = some v := by
  induction l with
  | nil => simp [setKey, assoc]
  | cons p rest ih =>
    obtain ⟨k', v'⟩ := p
    by_cases hk : k' = k
    · subst hk
      simp [setKey, assoc]
    · simp [setKey, assoc, hk]
      exact ih

/-- C2: starting from a fresh connection (attempt counter 0, as set by
`handleOpen`), the 1st through 5th unintentional disconnects schedule
delays exactly 1000, 2000, 4000, 8000, 16000 ms (the counter is
incremented before the delay `min(1000·2^(attempts−1), 30000)` is
computed), and the 6th disconnect schedules no delay: it dispatches the
terminal `websocketReconnectFailed` signal and leaves the counter at 5,
so no automatic attempt follows. -/
theorem reconnect_backoff_delays :
    reconnectTrace handleOpenAttempts 6 =
      [some 1000, some 2000, some 4000, some 8000, some 16000, none] ∧
    scheduleReconnect 5 = ⟨none, true, 5⟩ := by
  constructor
  · rfl
  · rfl

theorem standardParameters_min_le_max :
    ∀ p ∈ standardParameters, p.2.min ≤ p.2.max := by decide

/-- C6: `validateParameter` clamps every value against the declared
bounds of a known parameter id (`Math.max(min, Math.min(max, value))`);
validating 5.0 against the `[0,1]` bounds of `ParamEyeLOpen` yields 1.0
and −5.0 yields 0.0; and on the known-expression path of
`getExpressionParameters`, every declared parameter in the returned map
lies within its declared `[min, max]`. -/
theorem parameter_bounds_clamped :
    (∀ paramId b value, assoc standardParameters paramId = some b →
      validateParameter paramId value = max b.min (min b.max value)) ∧
    (validateParameter "ParamEyeLOpen" 5 = 1 ∧
      validateParameter "ParamEyeLOpen" (-5) = 0) ∧
    (∀ (table : ExprTable) name intensity base m paramId v b,
      assoc table name = some base →
      getExpressionParameters table name intensity = some m →
      (paramId, v) ∈ m →
      assoc standardParameters paramId = some b →
      b.min ≤ v ∧ v ≤ b.max) := by
  refine ⟨?_, ⟨?_, ?_⟩, ?_⟩
  · intro paramId b value h
    simp [validateParameter, h]
  · show max (0 : ℚ) (min 1 5) = 1
    rw [min_eq_left (by norm_num : (1 : ℚ) ≤ 5),
      max_eq_right (by norm_num : (0 : ℚ) ≤ 1)]
  · show max (0 : ℚ) (min 1 (-5)) = 0
    rw [min_eq_right (by norm_num : (-5 : ℚ) ≤ 1),
      max_eq_left (by norm_num : (-5 : ℚ) ≤ 0)]
  · intro table name intensity base m paramId v b h1 h2 h3 h4
    rw [getExpressionParameters, h1] at h2
    injection h2 with h2
    subst h2
    obtain ⟨⟨p, x⟩, hmem, heq⟩ := List.mem_map.mp h3
    obtain ⟨hp, hv⟩ := Prod.mk.injEq .. ▸ heq
    simp only at hp hv
    subst hp
    rw [scaleParam, h4] at hv
    subst hv
    have hb : b.min ≤ b.max := standardParameters_min_le_max _ (assoc_mem h4)
    exact ⟨le_max_left _ _, max_le hb (min_le_left _ _)⟩

/-- Witness for `parameter_bounds_clamped` at concrete inputs: the
general clamp formula at `ParamAngleX`/value 47, and the bounds check
for the `ParamMouthForm` entry of
`getExpressionParameters initExpressions "happy" 1`. -/
theorem parameter_bounds_clamped_witness :
    validateParameter "ParamAngleX" 47 =
      max (-30 : ℚ) (min (30 : ℚ) 47) ∧
    ((⟨-1, 1, 0⟩ : ParamBounds).min ≤ scaleParam 1 "ParamMouthForm" (4/5) ∧
      scaleParam 1 "ParamMouthForm" (4/5) ≤ (⟨-1, 1, 0⟩ : ParamBounds).max) := by
  refine ⟨parameter_bounds_clamped.1 "ParamAngleX" ⟨-30, 30, 0⟩ 47 rfl, ?_⟩
  exact parameter_bounds_clamped.2.2 initExpressions "happy" 1
    happyBaseParams
    (happyBaseParams.map (fun pv => (pv.1, scaleParam 1 pv.1 pv.2)))
    "ParamMouthForm" (scaleParam 1 "ParamMouthForm" (4/5)) ⟨-1, 1, 0⟩
    rfl rfl (List.mem_cons_self _ _) rfl

/-- C10: when the requested name is not in the expression table,
`getExpressionParameters` returns `this.expressions['neutral']`
unchanged — the intensity argument is ignored (the result is the same
for any two intensities) and no scaling or bound clamping happens —
whereas for a known name every value is scaled by the intensity and
declared parameters are clamped (`scaleParam`). -/
theorem unknown_expression_fallback :
    (∀ (table : ExprTable) name i₁ i₂, assoc table name = none →
      getExpressionParameters table name i₁ = assoc table "neutral" ∧
      getExpressionParameters table name i₁ =
        getExpressionParameters table name i₂) ∧
    (∀ (table : ExprTable) name i base, assoc table name = some base →
      getExpressionParameters table name i =
        some (base.map (fun pv => (pv.1, scaleParam i pv.1 pv.2)))) := by
  constructor
  · intro table name i₁ i₂ h
    rw [getExpressionParameters, getExpressionParameters, h]
    exact ⟨rfl, rfl⟩
  · intro table name i base h
    rw [getExpressionParameters, h]

/-- Witness for `unknown_expression_fallback`: the unknown name
`"bogus"` with intensities 1/2 and 2 on the initial table, and the
known name `"blink"`. -/
theorem unknown_expression_fallback_witness :
    (getExpressionParameters initExpressions "bogus" (1/2) =
        assoc initExpressions "neutral" ∧
      getExpressionParameters initExpressions "bogus" (1/2) =
        getExpressionParameters initExpressions "bogus" 2) ∧
    getExpressionParameters initExpressions "blink" (1/2) =
      some ([("ParamEyeLOpen", 0), ("ParamEyeROpen", 0)].map
        (fun pv => (pv.1, scaleParam (1/2) pv.1 pv.2))) :=
  ⟨unknown_expression_fallback.1 initExpressions "bogus" (1/2) 2 rfl,
   unknown_expression_fallback.2 initExpressions "blink" (1/2)
     [("ParamEyeLOpen", 0), ("ParamEyeROpen", 0)] rfl⟩

theorem mem_dedupKeys (l : List String) (x : String) :
    x ∈ dedupKeys l ↔ x ∈ l := by
  induction l with
  | nil => simp [dedupKeys]
  | cons k rest ih =>
    simp only [dedupKeys, List.mem_cons, List.mem_filter, ih,
      bne_iff_ne, ne_eq]
    by_cases hx : x = k <;> simp [hx]

theorem easingFunctionsMap_eq_specEase :
    ∀ name ∈ ["linear", "easeIn", "easeOut", "easeInOut", "bounce"],
      ∀ t, ((assoc easingFunctionsMap name).getD (fun x => x)) t =
        specEase name t := by
  intro name hname t
  have hcases : name = "linear" ∨ name = "easeIn" ∨ name = "easeOut" ∨
      name = "easeInOut" ∨ name = "bounce" := by simpa using hname
  rcases hcases with rfl | rfl | rfl | rfl | rfl <;>
    simp [easingFunctionsMap, assoc, specEase, bounceEase] <;>
    (try split_ifs) <;> ring

theorem mem_map_fst {β : Type} (l : List (String × β)) (k : String) :
    k ∈ l.map Prod.fst ↔ ∃ v, (k, v) ∈ l := by
  constructor
  · intro h
    obtain ⟨⟨a, b⟩, hm, he⟩ := List.mem_map.mp h
    simp only at he
    subst he
    exact ⟨b, hm⟩
  · rintro ⟨v, hv⟩
    exact List.mem_map.mpr ⟨(k, v), hv, rfl⟩

/-- C8: `interpolateParameters` clamps progress to `[0,1]`, the five
supported easing names ease with exactly the formulas the specification
states (`specEase`), a key missing from either map is read as 0, every
output value equals `from + (to − from) × eased(clamped progress)`, and
the output carries exactly the union of the two key sets. -/
theorem interpolate_easing_spec :
    (∀ name ∈ ["linear", "easeIn", "easeOut", "easeInOut", "bounce"],
      ∀ t, ((assoc easingFunctionsMap name).getD (fun x => x)) t =
        specEase name t) ∧
    (∀ (fromParams toParams : ParamMap) (progress : ℚ) name paramId v,
      name ∈ ["linear", "easeIn", "easeOut", "easeInOut", "bounce"] →
      (paramId, v) ∈ interpolateParameters fromParams toParams progress name →
      v = (assoc fromParams paramId).getD 0 +
        ((assoc toParams paramId).getD 0 - (assoc fromParams paramId).getD 0) *
          specEase name (max 0 (min 1 progress))) ∧
    (∀ (fromParams toParams : ParamMap) (progress : ℚ) easingType paramId,
      (∃ v, (paramId, v) ∈
          interpolateParameters fromParams toParams progress easingType) ↔
        ((∃ v, (paramId, v) ∈ fromParams) ∨ (∃ v, (paramId, v) ∈ toParams))) := by
  refine ⟨easingFunctionsMap_eq_specEase, ?_, ?_⟩
  · intro fromParams toParams progress name paramId v hname hmem
    simp only [interpolateParameters] at hmem
    obtain ⟨k, hk, heq⟩ := List.mem_map.mp hmem
    obtain ⟨hp, hv⟩ := Prod.mk.injEq .. ▸ heq
    subst hp
    rw [← hv, easingFunctionsMap_eq_specEase name hname]
  · intro fromParams toParams progress easingType paramId
    constructor
    · rintro ⟨v, hv⟩
      simp only [interpolateParameters] at hv
      obtain ⟨k, hk, heq⟩ := List.mem_map.mp hv
      obtain ⟨hp, _⟩ := Prod.mk.injEq .. ▸ heq
      subst hp
      rw [mem_dedupKeys, List.mem_append, mem_map_fst, mem_map_fst] at hk
      exact hk
    · intro h
      have hk : paramId ∈
          dedupKeys (fromParams.map Prod.fst ++ toParams.map Prod.fst) := by
        rw [mem_dedupKeys, List.mem_append, mem_map_fst, mem_map_fst]
        exact h
      refine ⟨(assoc fromParams paramId).getD 0 +
        ((assoc toParams paramId).getD 0 -
          (assoc fromParams paramId).getD 0) *
          ((assoc easingFunctionsMap easingType).getD (fun t => t))
            (max 0 (min 1 progress)), ?_⟩
      simp only [interpolateParameters]
      exact List.mem_map.mpr ⟨paramId, hk, rfl⟩

/-- Witness for `interpolate_easing_spec`: the bounce easing at 1/5,
and the single entry of
`interpolateParameters [("ParamMouthOpenY", 1)] [] 2 "easeOut"`. -/
theorem interpolate_easing_spec_witness :
    ((assoc easingFunctionsMap "bounce").getD (fun x => x)) (1/5) =
      specEase "bounce" (1/5) ∧
    ((assoc ([("ParamMouthOpenY", 1)] : ParamMap) "ParamMouthOpenY").getD 0 +
        ((assoc ([] : ParamMap) "ParamMouthOpenY").getD 0 -
          (assoc ([("ParamMouthOpenY", 1)] : ParamMap) "ParamMouthOpenY").getD 0) *
          ((assoc easingFunctionsMap "easeOut").getD (fun x => x))
            (max 0 (min 1 2))) =
      (assoc ([("ParamMouthOpenY", 1)] : ParamMap) "ParamMouthOpenY").getD 0 +
        ((assoc ([] : ParamMap) "ParamMouthOpenY").getD 0 -
          (assoc ([("ParamMouthOpenY", 1)] : ParamMap) "ParamMouthOpenY").getD 0) *
          specEase "easeOut" (max 0 (min 1 2)) :=
  ⟨interpolate_easing_spec.1 "bounce" (by simp) (1/5),
   interpolate_easing_spec.2.1 [("ParamMouthOpenY", 1)] [] 2 "easeOut"
     "ParamMouthOpenY" _ (by simp) (List.mem_cons_self _ _)⟩

/-- C9: for every name present in the expression table, exporting it and
importing the exported result leaves the table's mapping for that name
equal to the original parameter map. -/
theorem export_import_round_trip (table : ExprTable) (name : String)
    (params : ParamMap) (h : assoc table name = some params) :
    assoc (exportImportRoundTrip table name) name = some params := by
  rw [exportImportRoundTrip, exportExpression, h]
  by_cases hname : name = ""
  · simp only [importExpression, hname, if_pos rfl]
    exact hname ▸ h
  · simp only [importExpression, if_neg hname]
    exact assoc_setKey_self table name params

/-- Witness for `export_import_round_trip` at the initial table's
`"happy"` entry. -/
theorem export_import_round_trip_witness :
    assoc (exportImportRoundTrip initExpressions "happy") "happy" =
      some happyBaseParams :=
  export_import_round_trip initExpressions "happy" happyBaseParams rfl

theorem preClampIntensity_eq_product (confidence : ℚ)
    (ctx : ConversationContext) (history : List HistoryEntry)
    (baseExpression : String) :
    preClampIntensity confidence ctx history baseExpression =
      specIntensityProduct confidence ctx.engagement ctx.responseCount
        (repeatedExpressionCount history baseExpression) := by
  simp only [preClampIntensity, intensityAfterEngagement,
    intensityAfterFirstInteraction, specIntensityProduct, intensityModifiers]
  split_ifs <;> ring

/-- C1: the intensity returned by `determineAnimation` equals
`confidence`, multiplied in the fixed order by 1.2 when
`responseCount = 0`, by 1.1 when engagement > 0.7 or 0.8 when
engagement < 0.3, and by 0.7 when the base expression appears at least
twice among the last 3 history entries, clamped to `[0.3, 1.0]`; the
returned intensity always lies in `[0.3, 1.0]`; and when the
repetition condition holds, the pre-clamp intensity equals the value
without the repetition modifier (the pre-clamp intensity over an empty
history) times 0.7. -/
theorem determineAnimation_intensity_spec :
    (∀ sentiment (confidence : ℚ) (text : String)
        (ctx : ConversationContext) (history : List HistoryEntry),
      (determineAnimation sentiment confidence text ctx history).intensity =
        max (3/10) (min 1 (specIntensityProduct confidence ctx.engagement
          ctx.responseCount
          (repeatedExpressionCount history
            (mapSentimentToExpression sentiment))))) ∧
    (∀ sentiment (confidence : ℚ) (text : String)
        (ctx : ConversationContext) (history : List HistoryEntry),
      3/10 ≤ (determineAnimation sentiment confidence text ctx history).intensity ∧
      (determineAnimation sentiment confidence text ctx history).intensity ≤ 1) ∧
    (∀ (confidence : ℚ) (ctx : ConversationContext)
        (history : List HistoryEntry) (baseExpression : String),
      repeatedExpressionCount history baseExpression ≥ 2 →
      preClampIntensity confidence ctx history baseExpression =
        preClampIntensity confidence ctx [] baseExpression * (7/10)) := by
  refine ⟨?_, ?_, ?_⟩
  · intro sentiment confidence text ctx history
    show max (3/10) (min 1 (preClampIntensity confidence ctx history
      (mapSentimentToExpression sentiment))) = _
    rw [preClampIntensity_eq_product]
  · intro sentiment confidence text ctx history
    refine ⟨le_max_left _ _, ?_⟩
    show max (3/10) (min 1 (preClampIntensity confidence ctx history
      (mapSentimentToExpression sentiment))) ≤ 1
    exact max_le (by norm_num) (min_le_left _ _)
  · intro confidence ctx history baseExpression h
    have h0 : ¬ (repeatedExpressionCount ([] : List HistoryEntry)
        baseExpression ≥ 2) := by
      simp [repeatedExpressionCount]
    rw [preClampIntensity, if_pos h, preClampIntensity, if_neg h0]
    rfl

/-- Witness for `determineAnimation_intensity_spec`: part 3 at a
history of two `happy` entries (its hypothesis holds) together with
the instantiated clamp-formula and bounds parts. -/
theorem determineAnimation_intensity_spec_witness :
    (determineAnimation "positive" 1 "hi" initConversationContext []).intensity =
      max (3/10) (min 1 (specIntensityProduct 1
        initConversationContext.engagement
        initConversationContext.responseCount
        (repeatedExpressionCount [] (mapSentimentToExpression "positive")))) ∧
    preClampIntensity 1 initConversationContext
      [⟨"happy", 1, 2, "positive", 1, 0⟩, ⟨"happy", 1, 2, "positive", 1, 100⟩]
      "happy" =
      preClampIntensity 1 initConversationContext [] "happy" * (7/10) :=
  ⟨determineAnimation_intensity_spec.1 "positive" 1 "hi"
      initConversationContext [],
   determineAnimation_intensity_spec.2.2 1 initConversationContext
     [⟨"happy", 1, 2, "positive", 1, 0⟩, ⟨"happy", 1, 2, "positive", 1, 100⟩]
     "happy" (by decide)⟩

theorem trigger_throttled (st : SchedulerState) (c : String)
    (a : AnimDecision) (now : ℤ) (ok : Bool)
    (h : now - st.lastAnimationTime < minAnimationInterval) :
    triggerContextualAnimation st c a now ok = ⟨false, st, []⟩ := by
  rw [triggerContextualAnimation, if_pos h]

theorem trigger_not_throttled_success (st : SchedulerState) (c : String)
    (a : AnimDecision) (now : ℤ)
    (h : ¬ (now - st.lastAnimationTime < minAnimationInterval)) :
    triggerContextualAnimation st c a now true =
      ⟨true,
        ⟨now,
          addToHistory st.animationHistory
            ⟨a.expression, a.intensity, a.duration, a.sentiment,
              a.confidence, now⟩⟩,
        (if isValidTransition c a.expression then []
         else [⟨"neutral", 1/2, 1/2⟩]) ++
          [⟨a.expression, a.intensity, a.duration⟩]⟩ := by
  rw [triggerContextualAnimation, if_neg h]
  rfl

/-- C5: a request made less than 500 ms after `lastAnimationTime`
returns `false`, issues no playback, and leaves the state (history and
`lastAnimationTime`) unchanged; consequently, when a first request
succeeds at `t₁` and a second arrives at `t₂` with `t₂ − t₁ < 500`,
the second is rejected and the history still equals the history after
the first request (the second never appears in it). -/
theorem animation_throttle_rejects :
    (∀ (st : SchedulerState) (c : String) (a : AnimDecision) (now : ℤ)
        (ok : Bool),
      now - st.lastAnimationTime < minAnimationInterval →
      triggerContextualAnimation st c a now ok = ⟨false, st, []⟩) ∧
    (∀ (st : SchedulerState) (c₁ c₂ : String) (a₁ a₂ : AnimDecision)
        (t₁ t₂ : ℤ) (ok₂ : Bool),
      (triggerContextualAnimation st c₁ a₁ t₁ true).returned = true →
      t₂ - t₁ < minAnimationInterval →
      (triggerContextualAnimation
          (triggerContextualAnimation st c₁ a₁ t₁ true).state c₂ a₂ t₂
          ok₂).state.animationHistory =
        (triggerContextualAnimation st c₁ a₁ t₁ true).state.animationHistory ∧
      (triggerContextualAnimation
          (triggerContextualAnimation st c₁ a₁ t₁ true).state c₂ a₂ t₂
          ok₂).returned = false) := by
  refine ⟨fun st c a now ok h => trigger_throttled st c a now ok h, ?_⟩
  intro st c₁ c₂ a₁ a₂ t₁ t₂ ok₂ hret hlt
  by_cases h₁ : t₁ - st.lastAnimationTime < minAnimationInterval
  · rw [trigger_throttled st c₁ a₁ t₁ true h₁] at hret
    exact absurd hret (by simp)
  · rw [trigger_not_throttled_success st c₁ a₁ t₁ h₁]
    rw [trigger_throttled _ c₂ a₂ t₂ ok₂
      (show t₂ - t₁ < minAnimationInterval from hlt)]
    exact ⟨rfl, rfl⟩

/-- Witness for `animation_throttle_rejects`: a throttled call 100 ms
after the last animation, and a successful call at t₁ = 600 followed by
a second call at t₂ = 700. -/
theorem animation_throttle_rejects_witness :
    triggerContextualAnimation ⟨1000, []⟩ "neutral"
        ⟨"happy", 1, 2, "positive", 1⟩ 1100 true =
      ⟨false, ⟨1000, []⟩, []⟩ ∧
    (triggerContextualAnimation
        (triggerContextualAnimation ⟨0, []⟩ "neutral"
          ⟨"happy", 1, 2, "positive", 1⟩ 600 true).state "happy"
        ⟨"sad", 1, 2, "negative", 1⟩ 700 true).state.animationHistory =
      (triggerContextualAnimation ⟨0, []⟩ "neutral"
        ⟨"happy", 1, 2, "positive", 1⟩ 600 true).state.animationHistory :=
  ⟨animation_throttle_rejects.1 ⟨1000, []⟩ "neutral"
     ⟨"happy", 1, 2, "positive", 1⟩ 1100 true (by decide),
   (animation_throttle_rejects.2 ⟨0, []⟩ "neutral" "happy"
     ⟨"happy", 1, 2, "positive", 1⟩ ⟨"sad", 1, 2, "negative", 1⟩ 600 700
     true (by decide) (by decide)).1⟩

/-- C3 (amended): `isValidTransition('angry','happy')` is false under
the fixed adjacency table, and an invalid transition makes
`triggerContextualAnimation` issue exactly one intermediate
`('neutral', 0.5, 0.5)` playback immediately preceding the requested
playback; the animation history, however, receives only the requested
animation (the intermediate neutral playback is not recorded in it). -/
theorem invalid_transition_neutral_bridge :
    isValidTransition "angry" "happy" = false ∧
    (∀ (st : SchedulerState) (c : String) (a : AnimDecision) (now : ℤ)
        (ok : Bool),
      ¬ (now - st.lastAnimationTime < minAnimationInterval) →
      isValidTransition c a.expression = false →
      (triggerContextualAnimation st c a now ok).played =
        [⟨"neutral", 1/2, 1/2⟩,
         ⟨a.expression, a.intensity, a.duration⟩] ∧
      (triggerContextualAnimation st c a now true).state.animationHistory =
        addToHistory st.animationHistory
          ⟨a.expression, a.intensity, a.duration, a.sentiment,
            a.confidence, now⟩) := by
  refine ⟨rfl, ?_⟩
  intro st c a now ok h1 h2
  constructor
  · rw [triggerContextualAnimation, if_neg h1]
    cases ok <;> simp [h2]
  · rw [trigger_not_throttled_success st c a now h1]

/-- Witness for `invalid_transition_neutral_bridge`: the angry→happy
request at t = 1000 on a fresh state. -/
theorem invalid_transition_neutral_bridge_witness :
    (triggerContextualAnimation ⟨0, []⟩ "angry"
        ⟨"happy", 4/5, 2, "happy", 4/5⟩ 1000 true).played =
      [⟨"neutral", 1/2, 1/2⟩, ⟨"happy", 4/5, 2⟩] ∧
    (triggerContextualAnimation ⟨0, []⟩ "angry"
        ⟨"happy", 4/5, 2, "happy", 4/5⟩ 1000 true).state.animationHistory =
      addToHistory [] ⟨"happy", 4/5, 2, "happy", 4/5, 1000⟩ :=
  invalid_transition_neutral_bridge.2 ⟨0, []⟩ "angry"
    ⟨"happy", 4/5, 2, "happy", 4/5⟩ 1000 true (by decide) rfl

/-- C3 (counterexample): after the invalid angry→happy request is
triggered successfully, the playback sequence does contain the
intermediate neutral, but the animation history contains only the
requested `happy` entry — no neutral animation precedes the requested
one *in the history*, contradicting the claim as stated. -/
theorem invalid_transition_history_counterexample :
    (triggerContextualAnimation ⟨0, []⟩ "angry"
        ⟨"happy", 4/5, 2, "happy", 4/5⟩ 1000 true).played.map
        Playback.expression = ["neutral", "happy"] ∧
    (triggerContextualAnimation ⟨0, []⟩ "angry"
        ⟨"happy", 4/5, 2, "happy", 4/5⟩ 1000 true).state.animationHistory.map
        HistoryEntry.expression = ["happy"] := by
  exact ⟨rfl, rfl⟩

/-- C7 (counterexample): on `"love love love"` the code adds 0.05 once
(the keyword `love` is counted once, however often it occurs), giving
0.55, while the claim's "0.05 per occurrence" formula gives 0.65. -/
theorem engagement_per_occurrence_counterexample :
    analyzeUserEngagement "love love love".data = 11/20 ∧
    analyzeUserEngagementPerOccurrence "love love love".data = 13/20 ∧
    analyzeUserEngagement "love love love".data ≠
      analyzeUserEngagementPerOccurrence "love love love".data := by
  have h1 : analyzeUserEngagement "love love love".data =
      max (1/10) (min 1 ((1/2 : ℚ) + ((1 : ℕ) : ℚ) * (1/20) +
        ((0 : ℕ) : ℚ) * (3/100))) := rfl
  have h2 : analyzeUserEngagementPerOccurrence "love love love".data =
      max (1/10) (min 1 ((1/2 : ℚ) + ((3 : ℕ) : ℚ) * (1/20) +
        ((0 : ℕ) : ℚ) * (3/100))) := rfl
  rw [h1, h2]
  norm_num [min_def, max_def]

/-- C7 (amended): for every text, `analyzeUserEngagement` returns 0.5
for empty text and otherwise the additive score — 0.5, +0.2 if
length > 50, +0.1 if length > 100, +0.1 if it contains a question mark,
+0.05 per emotional keyword of the fixed list occurring in the text,
+0.03 per pronoun of the fixed list occurring among the space-split
tokens (each list word counted at most once) — clamped to `[0.1, 1.0]`;
the result always lies in `[0.1, 1.0]`. -/
theorem engagement_score_spec :
    ∀ text : List Char,
      analyzeUserEngagement text =
        (if text = [] then 1/2
         else max (1/10) (min 1 (engagementScoreDistinct text))) ∧
      1/10 ≤ analyzeUserEngagement text ∧
      analyzeUserEngagement text ≤ 1 := by
  intro text
  refine ⟨?_, ?_⟩
  · by_cases he : text = []
    · simp [analyzeUserEngagement, he]
    · simp only [analyzeUserEngagement, engagementScoreDistinct, if_neg he]
      congr 1
      congr 1
      split_ifs <;> ring
  · by_cases he : text = []
    · rw [analyzeUserEngagement, if_pos he]
      norm_num
    · rw [analyzeUserEngagement, if_neg he]
      exact ⟨le_max_left _ _, max_le (by norm_num) (min_le_left _ _)⟩

theorem handleMessage_cases (msg : InboundMessage) (errs : ℕ) :
    handleMessage msg errs = messageFailure errs ∨
    (∃ t, handleMessage msg errs = ⟨some t, 0, false⟩) ∨
    handleMessage msg errs = ⟨none, errs, false⟩ := by
  rcases msg with ⟨po, tf, ef⟩
  cases po
  · exact Or.inl rfl
  · cases tf with
    | none => exact Or.inl rfl
    | some ty =>
      by_cases h0 : ty = ""
      · subst h0
        exact Or.inl rfl
      · by_cases h1 : ty = "animation_event"
        · subst h1
          cases ef with
          | none => exact Or.inl rfl
          | some e =>
            by_cases h2 : validateAnimationEvent e
            · refine Or.inr (Or.inl ⟨"animation_event", ?_⟩)
              simp [handleMessage, h2]
            · refine Or.inl ?_
              simp [handleMessage, h2, messageFailure]
        · by_cases h3 : ty ∈ knownMessageTypes
          · refine Or.inr (Or.inl ⟨ty, ?_⟩)
            simp [handleMessage, h0, h1, h3]
          · refine Or.inr (Or.inr ?_)
            simp [handleMessage, h0, h1, h3]

/-- C4: an `animation_event` message whose nested event lacks
`timestamp` is rejected — no handler is invoked and the
consecutive-error counter increments by exactly 1; every dispatched
message resets the counter to 0; and whenever the counter was
incremented, a reconnect is forced exactly when the new counter value
exceeds 5. -/
theorem animation_event_validation_errors :
    (∀ (msg : InboundMessage) (e : AnimEventFields) (errs : ℕ),
      msg.parsesToObject = true →
      msg.typeField = some "animation_event" →
      msg.eventField = some e →
      e.hasTimestamp = false →
      (handleMessage msg errs).handlerInvoked = none ∧
      (handleMessage msg errs).consecutiveErrors = errs + 1) ∧
    (∀ (msg : InboundMessage) (errs : ℕ) (t : String),
      (handleMessage msg errs).handlerInvoked = some t →
      (handleMessage msg errs).consecutiveErrors = 0) ∧
    (∀ (msg : InboundMessage) (errs : ℕ),
      (handleMessage msg errs).consecutiveErrors = errs + 1 →
      ((handleMessage msg errs).reconnectRequested ↔ errs + 1 > 5)) := by
  refine ⟨?_, ?_, ?_⟩
  · intro msg e errs hp ht he hts
    simp [handleMessage, hp, ht, he, validateAnimationEvent, hts,
      messageFailure]
  · intro msg errs t h
    rcases handleMessage_cases msg errs with hc | ⟨t', hc⟩ | hc
    · rw [hc] at h
      exact absurd h (by simp [messageFailure])
    · rw [hc]
    · rw [hc] at h
      exact absurd h (by simp)
  · intro msg errs h
    rcases handleMessage_cases msg errs with hc | ⟨t', hc⟩ | hc
    · rw [hc]
      simp [messageFailure]
    · rw [hc] at h
      exact absurd h (show ¬ ((0 : ℕ) = errs + 1) by omega)
    · rw [hc] at h
      exact absurd h (show ¬ (errs = errs + 1) by omega)

/-- Witness for `animation_event_validation_errors`: an
`animation_event` whose event has `event_type` and `data` but no
`timestamp`, arriving with the counter at 5 (so the increment to 6
forces a reconnect), and a well-formed `heartbeat` arriving with the
counter at 3. -/
theorem animation_event_validation_errors_witness :
    ((handleMessage ⟨true, some "animation_event",
        some ⟨true, false, true, false, false, false⟩⟩ 5).handlerInvoked =
      none ∧
    (handleMessage ⟨true, some "animation_event",
        some ⟨true, false, true, false, false, false⟩⟩ 5).consecutiveErrors =
      5 + 1) ∧
    (handleMessage ⟨true, some "heartbeat", none⟩ 3).consecutiveErrors = 0 ∧
    ((handleMessage ⟨true, some "animation_event",
        some ⟨true, false, true, false, false, false⟩⟩ 5).reconnectRequested ↔
      5 + 1 > 5) :=
  ⟨animation_event_validation_errors.1
     ⟨true, some "animation_event", some ⟨true, false, true, false, false, false⟩⟩
     ⟨true, false, true, false, false, false⟩ 5 rfl rfl rfl rfl,
   animation_event_validation_errors.2.1
     ⟨true, some "heartbeat", none⟩ 3 "heartbeat" rfl,
   animation_event_validation_errors.2.2
     ⟨true, some "animation_event", some ⟨true, false, true, false, false, false⟩⟩
     5 rfl⟩
